import Mathlib

/-!
Verification of the perseus client-side state reconciliation engine
(`src/packages/perseus/src/template/render_ctx.rs`).

The render context (`RenderCtx`) is embedded shallowly: the interior-mutable
fields (`page_state_store`, `global_state`, `frozen_app`) become record fields
that every operation threads explicitly, so a method that mutates through a
`RefCell` here returns an updated `RenderCtx` alongside its result.

Type-erased state values (`dyn AnyFreeze`) are modelled by a type tag (`ty`,
standing for the Rust type `<R::Unrx as MakeRx>::Rx` a request is made at)
paired with a payload; serialized strings are modelled by `SerStr`, whose
constructor `ser ty data` is the `serde_json` serialization of the value
`⟨ty, data⟩`, so `serde_json::from_str::<T>` succeeds on a string exactly when
the string serializes a value of type `T`, and the literal string "None" (the
absent-global-state sentinel) is the constructor `noneSentinel`.

The collaborator types that live outside `src/` (`crate::state`'s
`PageStateStore`, `ThawPrefs`, `FrozenApp` internals, `crate::router`'s
`RouterLoadState`) are modelled from the spec; each such definition carries a
doc comment saying so.
-/

/-- A type-erased reactive state value: a type tag together with a payload.
`ty` stands for the Rust type the value inhabits and `data` for its
contents; observational equality of state values is equality of both. -/
structure Val where
  ty : Nat
  data : Nat
deriving DecidableEq, Repr

/-- A serialized state string as handled by `serde_json`.
`ser ty data` is the serialization of the value `⟨ty, data⟩`;
`noneSentinel` is the literal string "None" used for absent global state
(see `rx_state.rs`); `junk n` is any other string, on which deserialization
at every type fails. -/
inductive SerStr where
  | noneSentinel
  | ser (ty data : Nat)
  | junk (n : Nat)
deriving DecidableEq, Repr

/-- `serde_json::from_str::<T>` at the type with tag `ty`: succeeds exactly
when the string is the serialization of a value of that type. -/
def deserialize (ty : Nat) (s : SerStr) : Option Nat :=
  match s with
  | .ser ty2 d => if ty2 = ty then some d else none
  | _ => none

/-- `AnyFreeze::freeze` on a stored value: serialize it at its own type. -/
def Val.freeze (v : Val) : SerStr :=
  .ser v.ty v.data

/-- Association-list lookup keyed by URL strings (the `HashMap` reads of the
source: first — and, keys being unique, only — binding wins). -/
def lookupStr {β : Type} : List (String × β) → String → Option β
  | [], _ => none
  | e :: rest, k => if e.1 = k then some e.2 else lookupStr rest k

/-- Association-list removal keyed by URL strings (`HashMap::remove`). -/
def removeStr {β : Type} : List (String × β) → String → List (String × β)
  | [], _ => []
  | e :: rest, k => if e.1 = k then removeStr rest k else e :: removeStr rest k

/-- Association-list insert-or-replace keyed by URL strings
(`HashMap::insert`). -/
def insertStr {β : Type} (l : List (String × β)) (k : String) (v : β) :
    List (String × β) :=
  (k, v) :: removeStr l k

/-- Modelled from the spec: the per-page tri-state flag of the page state
store (`crate::state::PageStateStore` is not under `src/`). -/
inductive PageStateFlag where
  | Unset
  | NeverReceivesState
  | HasState
deriving DecidableEq, Repr

/-- Modelled from the spec: the page state store — a mapping from URL to a
type-erased reactive value, plus the per-page flag map
(`crate::state::PageStateStore` is not under `src/`; the preload bookkeeping
and the maximum-entry bound play no part in the operations embedded here). -/
structure PageStateStore where
  map : List (String × Val)
  flags : List (String × PageStateFlag)
deriving DecidableEq, Repr

/-- The flag recorded for a URL, `Unset` when none has been recorded. -/
def PageStateStore.flagOf (pss : PageStateStore) (url : String) : PageStateFlag :=
  match lookupStr pss.flags url with
  | some f => f
  | none => .Unset

/-- Modelled from the spec: `add_state(url, value) -> bool` — returns `false`
(no-op) if `url` is flagged `NeverReceivesState`; otherwise stores the value,
sets the flag to `HasState`, and returns `true`. -/
def PageStateStore.add_state (pss : PageStateStore) (url : String) (v : Val) :
    PageStateStore × Bool :=
  match pss.flagOf url with
  | .NeverReceivesState => (pss, false)
  | _ => (⟨insertStr pss.map url v, insertStr pss.flags url .HasState⟩, true)

/-- Modelled from the spec: `get_state<T>(url)` — the stored value when
present and type-compatible, else `None`. -/
def PageStateStore.get_state (pss : PageStateStore) (ty : Nat) (url : String) :
    Option Val :=
  match lookupStr pss.map url with
  | some v => if v.ty = ty then some v else none
  | none => none

/-- Modelled from the spec: `set_state_never(url)` — marks the URL as
permanently stateless, so later `add_state` calls for it are rejected. -/
def PageStateStore.set_state_never (pss : PageStateStore) (url : String) :
    PageStateStore :=
  ⟨pss.map, insertStr pss.flags url .NeverReceivesState⟩

/-- Modelled from the spec: `freeze_to_hash_map` — a serialized copy of every
entry currently in the page state store. -/
def PageStateStore.freeze_to_hash_map (pss : PageStateStore) :
    List (String × SerStr) :=
  pss.map.map (fun e => (e.1, e.2.freeze))

/-- The global state slot (`crate::state::GlobalState`): a single type-erased
value or absence (the source initializes it to a boxed `Option::<()>::None`,
which no user type downcasts from and which freezes to "None"). -/
abbrev GlobalStateSlot := Option Val

/-- `AnyFreeze::freeze` on the global state slot: the serialized value, or
the "None" sentinel when absent. -/
def globalFreeze (g : GlobalStateSlot) : SerStr :=
  match g with
  | some v => v.freeze
  | none => .noneSentinel

/-- The frozen app snapshot (`crate::state::FrozenApp`, built in
`RenderCtx::freeze`): the route at freeze time, the serialized global state
("None" when absent), and a serialized copy of the page state store. -/
structure FrozenApp where
  route : String
  global_state : SerStr
  page_state_store : List (String × SerStr)
deriving DecidableEq, Repr

/-- Modelled from the spec: the per-page thaw policy — pattern overrides over
a default, queried through `should_use_frozen_state`
(`crate::state::ThawPrefs` is not under `src/`). -/
structure PageThawPrefs where
  overrides : List (String × Bool)
  defaultPreferFrozen : Bool
deriving DecidableEq, Repr

/-- Whether frozen state is preferred over active state for this URL. -/
def PageThawPrefs.should_use_frozen_state (p : PageThawPrefs) (url : String) :
    Bool :=
  match lookupStr p.overrides url with
  | some b => b
  | none => p.defaultPreferFrozen

/-- Modelled from the spec: thaw preferences — a single boolean for the
global state and a per-page policy. -/
structure ThawPrefs where
  page : PageThawPrefs
  global_prefer_frozen : Bool
deriving DecidableEq, Repr

/-- The router's load state (`crate::router::RouterLoadState`): a current
path when loaded / loading / error-loaded, or `Server` when no route is
known (a non-interactive context). -/
inductive RouterLoadState where
  | Loaded (path : String)
  | Loading (path : String)
  | ErrorLoaded (path : String)
  | Server
deriving DecidableEq, Repr

/-- The current path recorded in the router's load state, `none` on the
server-side sentinel. -/
def RouterLoadState.currentPath : RouterLoadState → Option String
  | .Loaded p => some p
  | .Loading p => some p
  | .ErrorLoaded p => some p
  | .Server => none

/-- The client errors this module produces (`ClientError::ThawFailed`,
`ClientError::StateInvalid`). -/
inductive ClientError where
  | ThawFailed
  | StateInvalid
deriving DecidableEq, Repr

/-- The navigation primitive invoked by `thaw`: a same-page reload
(`self.router.reload()`) or a navigation (`navigate(&route)`). -/
inductive NavAction where
  | reload
  | navigate (route : String)
deriving DecidableEq, Repr

/-- The outcome of `thaw`: success with the navigation action it triggered,
the `ThawFailed` error, or the server-side panic. -/
inductive ThawOutcome where
  | ok (act : NavAction)
  | thawFailed
  | panicked
deriving DecidableEq, Repr

/-- A candidate serialized snapshot handed to `thaw`: `valid fa` is a string
that `serde_json::from_str::<FrozenApp>` parses as `fa`; `invalid n` is any
string on which that parse fails. -/
inductive FrozenInput where
  | valid (fa : FrozenApp)
  | invalid (n : Nat)
deriving DecidableEq, Repr

/-- The render context (`RenderCtx`): the router state, the page state
store, the global state slot, and the single pending-frozen slot
(`frozen_app: Rc<RefCell<Option<(FrozenApp, ThawPrefs)>>>`). -/
structure RenderCtx where
  router : RouterLoadState
  page_state_store : PageStateStore
  global_state : GlobalStateSlot
  frozen_app : Option (FrozenApp × ThawPrefs)
deriving DecidableEq, Repr

/-- `RenderCtx::freeze` (lines 77–92): build a `FrozenApp` from the frozen
global state, the route read from the router's load state ("SERVER" on the
server-side sentinel), and a serialized copy of the page state store. The
context is returned unchanged alongside, reflecting that the method only
reads through `&self`. -/
def RenderCtx.freeze (ctx : RenderCtx) : FrozenApp × RenderCtx :=
  (⟨match ctx.router with
    | .Loaded p => p
    | .Loading p => p
    | .ErrorLoaded p => p
    | .Server => "SERVER",
    globalFreeze ctx.global_state,
    ctx.page_state_store.freeze_to_hash_map⟩,
   ctx)

/-- `RenderCtx::thaw` (lines 264–296): parse the input (reporting
`ThawFailed` with the context untouched on failure), replace the
pending-frozen slot with the new `(snapshot, prefs)` pair, then read the
current route (panicking on the server-side sentinel) and trigger a reload
when it equals the snapshot's route or the snapshot's route is "SERVER",
otherwise a navigation to the snapshot's route. -/
def RenderCtx.thaw (ctx : RenderCtx) (new_frozen_app : FrozenInput)
    (thaw_prefs : ThawPrefs) : ThawOutcome × RenderCtx :=
  match new_frozen_app with
  | .invalid _ => (.thawFailed, ctx)
  | .valid fa =>
    let route := fa.route
    let ctx2 : RenderCtx := { ctx with frozen_app := some (fa, thaw_prefs) }
    match ctx2.router.currentPath with
    | none => (.panicked, ctx2)
    | some curr_route =>
      if curr_route = route ∨ route = "SERVER" then (.ok .reload, ctx2)
      else (.ok (.navigate route), ctx2)

/-- `RenderCtx::get_frozen_page_state_and_register` (lines 306–361): if a
snapshot is pending and the thaw preferences prefer frozen state for this
URL, look the URL up in the snapshot's page map; deserialize (a failure
falls through with nothing changed), register the reactive value into the
page state store (an `add_state` rejection returns `None`), remove the
consumed entry from the snapshot, and return the value; when the snapshot
has no entry for the URL, fall back to the page state store. -/
def RenderCtx.get_frozen_page_state_and_register (ctx : RenderCtx) (ty : Nat)
    (url : String) : Option Val × RenderCtx :=
  match ctx.frozen_app with
  | some (frozen_app, thaw_prefs) =>
    if thaw_prefs.page.should_use_frozen_state url then
      match lookupStr frozen_app.page_state_store url with
      | some state_str =>
        match deserialize ty state_str with
        | none => (none, ctx)
        | some d =>
          let rx : Val := ⟨ty, d⟩
          match ctx.page_state_store.add_state url rx with
          | (pss2, false) => (none, { ctx with page_state_store := pss2 })
          | (pss2, true) =>
            let fa2 : FrozenApp := { frozen_app with
              page_state_store := removeStr frozen_app.page_state_store url }
            (some rx, { ctx with page_state_store := pss2,
                                 frozen_app := some (fa2, thaw_prefs) })
      | none => (ctx.page_state_store.get_state ty url, ctx)
    else (none, ctx)
  | none => (none, ctx)

/-- `RenderCtx::get_active_page_state` (lines 364–373): read the page state
store. -/
def RenderCtx.get_active_page_state (ctx : RenderCtx) (ty : Nat)
    (url : String) : Option Val :=
  ctx.page_state_store.get_state ty url

/-- `RenderCtx::get_active_or_frozen_page_state` (lines 381–412): with a
pending snapshot, consult the thaw preferences; prefer-frozen tries the
frozen getter and falls back to the active state, prefer-active tries the
active state and falls back to the frozen getter; with no pending snapshot,
read the active state. -/
def RenderCtx.get_active_or_frozen_page_state (ctx : RenderCtx) (ty : Nat)
    (url : String) : Option Val × RenderCtx :=
  match ctx.frozen_app with
  | some (_, thaw_prefs) =>
    if thaw_prefs.page.should_use_frozen_state url then
      match ctx.get_frozen_page_state_and_register ty url with
      | (some state, ctx2) => (some state, ctx2)
      | (none, ctx2) => (ctx2.get_active_page_state ty url, ctx2)
    else
      match ctx.get_active_page_state ty url with
      | some state => (some state, ctx)
      | none => ctx.get_frozen_page_state_and_register ty url
  | none => (ctx.get_active_page_state ty url, ctx)

/-- `RenderCtx::get_frozen_global_state_and_register` (lines 416–464): if a
snapshot is pending and the preferences prefer frozen global state, test the
snapshot's global string against the "None" sentinel; deserialize (a failure
falls through), register the value as the new active global state, reset the
snapshot's global field to "None", and return the value. -/
def RenderCtx.get_frozen_global_state_and_register (ctx : RenderCtx)
    (ty : Nat) : Option Val × RenderCtx :=
  match ctx.frozen_app with
  | some (frozen_app, thaw_prefs) =>
    if thaw_prefs.global_prefer_frozen then
      match frozen_app.global_state with
      | .noneSentinel => (none, ctx)
      | state_str =>
        match deserialize ty state_str with
        | none => (none, ctx)
        | some d =>
          let rx : Val := ⟨ty, d⟩
          let fa2 : FrozenApp := { frozen_app with global_state := .noneSentinel }
          (some rx, { ctx with global_state := some rx,
                               frozen_app := some (fa2, thaw_prefs) })
    else (none, ctx)
  | none => (none, ctx)

/-- `RenderCtx::get_active_global_state` (lines 466–479): downcast the
global state slot at the requested type. -/
def RenderCtx.get_active_global_state (ctx : RenderCtx) (ty : Nat) :
    Option Val :=
  match ctx.global_state with
  | some v => if v.ty = ty then some v else none
  | none => none

/-- `RenderCtx::get_active_or_frozen_global_state` (lines 483–513): the
global analogue of `get_active_or_frozen_page_state`, steered by the single
`global_prefer_frozen` boolean. -/
def RenderCtx.get_active_or_frozen_global_state (ctx : RenderCtx) (ty : Nat) :
    Option Val × RenderCtx :=
  match ctx.frozen_app with
  | some (_, thaw_prefs) =>
    if thaw_prefs.global_prefer_frozen then
      match ctx.get_frozen_global_state_and_register ty with
      | (some state, ctx2) => (some state, ctx2)
      | (none, ctx2) => (ctx2.get_active_global_state ty, ctx2)
    else
      match ctx.get_active_global_state ty with
      | some state => (some state, ctx)
      | none => ctx.get_frozen_global_state_and_register ty
  | none => (ctx.get_active_global_state ty, ctx)

/-- `RenderCtx::register_page_state_str` (lines 523–543): deserialize
(surfacing a failure as `StateInvalid`), register into the page state store
discarding the `add_state` rejection flag, and return the reactive value. -/
def RenderCtx.register_page_state_str (ctx : RenderCtx) (ty : Nat)
    (url : String) (state_str : SerStr) :
    Except ClientError (Val × RenderCtx) :=
  match deserialize ty state_str with
  | none => .error .StateInvalid
  | some d =>
    let rx : Val := ⟨ty, d⟩
    let pss2 := (ctx.page_state_store.add_state url rx).1
    .ok (rx, { ctx with page_state_store := pss2 })

/-- `RenderCtx::register_global_state_str` (lines 546–565): deserialize
(surfacing a failure as `StateInvalid`), replace the active global state,
and return the reactive value. -/
def RenderCtx.register_global_state_str (ctx : RenderCtx) (ty : Nat)
    (state_str : SerStr) : Except ClientError (Val × RenderCtx) :=
  match deserialize ty state_str with
  | none => .error .StateInvalid
  | some d =>
    let rx : Val := ⟨ty, d⟩
    .ok (rx, { ctx with global_state := some rx })

/-- `RenderCtx::register_page_no_state` (lines 569–571): flag the page as
never receiving state. -/
def RenderCtx.register_page_no_state (ctx : RenderCtx) (url : String) :
    RenderCtx :=
  { ctx with page_state_store := ctx.page_state_store.set_state_never url }

/-! ### Concrete sample data used to evaluate the development -/

/-- Thaw preferences preferring frozen state everywhere. -/
def preferFrozenPrefs : ThawPrefs := ⟨⟨[], true⟩, true⟩

/-- Thaw preferences preferring active state everywhere. -/
def preferActivePrefs : ThawPrefs := ⟨⟨[], false⟩, false⟩

/-- A snapshot holding one well-formed page entry for "/a". -/
def pageSnapshotA : FrozenApp := ⟨"/a", .noneSentinel, [("/a", .ser 1 42)]⟩

/-- An empty-store context with `pageSnapshotA` pending, preferring frozen. -/
def ctxPendingA : RenderCtx :=
  ⟨.Loaded "/a", ⟨[], []⟩, none, some (pageSnapshotA, preferFrozenPrefs)⟩

/-- A snapshot holding one well-formed page entry for "/a" (payload 7). -/
def pageSnapshotB : FrozenApp := ⟨"/a", .noneSentinel, [("/a", .ser 0 7)]⟩

/-- An empty-store context with `pageSnapshotB` pending, preferring active. -/
def ctxPreferActive : RenderCtx :=
  ⟨.Loaded "/a", ⟨[], []⟩, none, some (pageSnapshotB, preferActivePrefs)⟩

/-- A snapshot holding a well-formed frozen global state and no pages. -/
def globalSnapshot : FrozenApp := ⟨"/a", .ser 3 5, []⟩

/-- An empty context with `globalSnapshot` pending and
`global_prefer_frozen = false`. -/
def ctxGlobalPreferActive : RenderCtx :=
  ⟨.Loaded "/a", ⟨[], []⟩, none, some (globalSnapshot, ⟨⟨[], true⟩, false⟩)⟩

/-- An empty context with `globalSnapshot` pending and
`global_prefer_frozen = true`. -/
def ctxGlobalPreferFrozen : RenderCtx :=
  ⟨.Loaded "/a", ⟨[], []⟩, none, some (globalSnapshot, preferFrozenPrefs)⟩

/-- A server-side context: no route is known and nothing is loaded. -/
def ctxServer : RenderCtx := ⟨.Server, ⟨[], []⟩, none, none⟩

/-- A live page state store holding state for "/a". -/
def livePss : PageStateStore := ⟨[("/a", ⟨1, 42⟩)], [("/a", .HasState)]⟩

/-- A live context with page state for "/a" and global state, nothing
pending. -/
def ctxLive : RenderCtx := ⟨.Loaded "/a", livePss, some ⟨2, 5⟩, none⟩

/-- A snapshot whose only page entry for "/a" is unparseable. -/
def corruptSnapshot : FrozenApp := ⟨"/a", .noneSentinel, [("/a", .junk 0)]⟩

/-- A live context with `corruptSnapshot` pending, preferring frozen. -/
def ctxCorrupt : RenderCtx :=
  ⟨.Loaded "/a", livePss, none, some (corruptSnapshot, preferFrozenPrefs)⟩

/-- An empty interactive context with nothing pending. -/
def ctxPlain : RenderCtx := ⟨.Loaded "/a", ⟨[], []⟩, none, none⟩

/-- A context whose store flags "/n" as never receiving state. -/
def ctxNeverFlag : RenderCtx :=
  ⟨.Loaded "/n", ⟨[], [("/n", .NeverReceivesState)]⟩, none, none⟩

/-! ### Helper lemmas about the association-list operations -/

theorem lookupStr_removeStr_self {β : Type} (l : List (String × β)) (k : String) :
    lookupStr (removeStr l k) k = none := by
  induction l with
  | nil => rfl
  | cons e rest ih =>
    by_cases h : e.1 = k
    · simp [removeStr, h, ih]
    · simp [removeStr, lookupStr, h, ih]

theorem lookupStr_map_snd {β γ : Type} (f : β → γ) (l : List (String × β))
    (k : String) :
    lookupStr (l.map (fun e => (e.1, f e.2))) k = (lookupStr l k).map f := by
  induction l with
  | nil => rfl
  | cons e rest ih =>
    by_cases h : e.1 = k
    · simp [lookupStr, h]
    · simp [lookupStr, h, ih]

theorem add_state_of_ne_never (pss : PageStateStore) (url : String) (v : Val)
    (h : pss.flagOf url ≠ .NeverReceivesState) :
    pss.add_state url v =
      (⟨insertStr pss.map url v, insertStr pss.flags url .HasState⟩, true) := by
  unfold PageStateStore.add_state
  cases hf : pss.flagOf url with
  | NeverReceivesState => exact absurd hf h
  | Unset => rfl
  | HasState => rfl

/-- A reconciliation call on a context whose pending snapshot has no entry
for the URL resolves from the live store and leaves the context unchanged. -/
theorem reconcile_of_not_in_snapshot (ctx : RenderCtx) (fa : FrozenApp)
    (prefs : ThawPrefs) (ty : Nat) (url : String)
    (hfa : ctx.frozen_app = some (fa, prefs))
    (hlook : lookupStr fa.page_state_store url = none) :
    ctx.get_active_or_frozen_page_state ty url =
      (ctx.get_active_page_state ty url, ctx) := by
  unfold RenderCtx.get_active_or_frozen_page_state
    RenderCtx.get_frozen_page_state_and_register
  rw [hfa]
  by_cases hp : prefs.page.should_use_frozen_state url
  · cases h : ctx.page_state_store.get_state ty url <;>
      simp [hp, hlook, h, RenderCtx.get_active_page_state]
  · cases h : ctx.page_state_store.get_state ty url <;>
      simp [hp, h, RenderCtx.get_active_page_state]


/-! ### C9 — freeze is read-only -/

/-- C9: Freeze is read-only with respect to the live state: `freeze` leaves
the page state store, the global state slot, the pending-frozen slot and the
router state exactly as they were; only the snapshot is produced. -/
theorem freeze_read_only (ctx : RenderCtx) :
    (ctx.freeze).2 = ctx ∧
    (ctx.freeze).2.page_state_store = ctx.page_state_store ∧
    (ctx.freeze).2.global_state = ctx.global_state ∧
    (ctx.freeze).2.frozen_app = ctx.frozen_app ∧
    (ctx.freeze).2.router = ctx.router :=
  ⟨rfl, rfl, rfl, rfl, rfl⟩

/-! ### C4 — thaw is atomic on malformed input -/

/-- C4: Thaw atomicity on malformed input: for every input string that fails
to parse as a whole snapshot, `thaw` returns the `ThawFailed` error and the
context — in particular the pending-frozen slot — is exactly the one before
the call; no reload or navigation action is produced. -/
theorem thaw_malformed_input_atomic (ctx : RenderCtx) (n : Nat)
    (prefs : ThawPrefs) :
    ctx.thaw (.invalid n) prefs = (.thawFailed, ctx) :=
  rfl

/-! ### C7 — thaw navigation behaviour -/

/-- C7: Thaw navigation behaviour: on a successful parse in an interactive
context, `thaw` replaces the pending-frozen slot with the new
`(snapshot, prefs)` pair — leaving the stores and router untouched — and
returns `Ok` with a reload when the snapshot's route equals the current
route or is the pre-interactive sentinel "SERVER", and a navigation to the
snapshot's route otherwise. -/
theorem thaw_valid_navigation (ctx : RenderCtx) (fa : FrozenApp)
    (prefs : ThawPrefs) (p : String)
    (hpath : ctx.router.currentPath = some p) :
    ctx.thaw (.valid fa) prefs =
      (.ok (if p = fa.route ∨ fa.route = "SERVER" then .reload
            else .navigate fa.route),
       { ctx with frozen_app := some (fa, prefs) }) := by
  obtain ⟨r, pss, gs, fz⟩ := ctx
  cases r <;> simp_all [RenderCtx.thaw, RouterLoadState.currentPath] <;>
    split <;> rfl

/-- Witness for C7 at a concrete input: thawing a snapshot recorded at "/b"
while "/a" is loaded stages the pair and navigates to "/b". -/
theorem thaw_valid_navigation_witness :
    ctxPlain.router.currentPath = some "/a" ∧
    ctxPlain.thaw (.valid pageSnapshotB) preferFrozenPrefs =
      (.ok (if "/a" = pageSnapshotB.route ∨ pageSnapshotB.route = "SERVER"
            then .reload else .navigate pageSnapshotB.route),
       { ctxPlain with frozen_app := some (pageSnapshotB, preferFrozenPrefs) }) :=
  ⟨rfl, thaw_valid_navigation ctxPlain pageSnapshotB preferFrozenPrefs "/a" rfl⟩

/-! ### C10 — raw-string registration discards the rejection flag -/

/-- C10: `register_page_state_str` for a URL flagged `NeverReceivesState`,
with a string that deserializes successfully, returns `Ok` with the reactive
value although nothing was registered: the context comes back unchanged, so
the store still holds no state for that URL, and the `Result` carries no
indication of the rejection. -/
theorem register_page_state_str_discards_rejection (ctx : RenderCtx)
    (ty : Nat) (url : String) (s : SerStr) (d : Nat)
    (hflag : ctx.page_state_store.flagOf url = .NeverReceivesState)
    (hdes : deserialize ty s = some d)
    (hnone : lookupStr ctx.page_state_store.map url = none) :
    ctx.register_page_state_str ty url s = .ok (⟨ty, d⟩, ctx) ∧
    ctx.page_state_store.get_state ty url = none := by
  constructor
  · unfold RenderCtx.register_page_state_str
    rw [hdes]
    unfold PageStateStore.add_state
    rw [hflag]
  · unfold PageStateStore.get_state
    rw [hnone]

/-- Witness for C10 at a concrete input: registering a valid string for the
never-receives-state page "/n" returns `Ok ⟨2, 9⟩` and leaves the store
without state for "/n". -/
theorem register_page_state_str_discards_rejection_witness :
    ctxNeverFlag.page_state_store.flagOf "/n" =
      PageStateFlag.NeverReceivesState ∧
    deserialize 2 (.ser 2 9) = some 9 ∧
    lookupStr ctxNeverFlag.page_state_store.map "/n" = none ∧
    (ctxNeverFlag.register_page_state_str 2 "/n" (.ser 2 9) =
      .ok (⟨2, 9⟩, ctxNeverFlag) ∧
     ctxNeverFlag.page_state_store.get_state 2 "/n" = none) :=
  ⟨rfl, rfl, rfl,
   register_page_state_str_discards_rejection ctxNeverFlag 2 "/n" (.ser 2 9) 9
     rfl rfl rfl⟩

/-! ### C1 — exactly-once consumption of frozen page entries -/

/-- C1: Exactly-once consumption of frozen page entries: for a URL present
in the pending snapshot's page map, a reconciliation call that successfully
deserializes and registers the frozen value returns it and removes the
URL's entry from the snapshot, and any later reconciliation call for that
URL resolves from the live store (or as absent), never from frozen data. -/
theorem exactly_once_frozen_page_consumption (ctx : RenderCtx)
    (fa : FrozenApp) (prefs : ThawPrefs) (ty d : Nat) (url : String)
    (s : SerStr)
    (hfa : ctx.frozen_app = some (fa, prefs))
    (hpref : prefs.page.should_use_frozen_state url = true)
    (hlook : lookupStr fa.page_state_store url = some s)
    (hdes : deserialize ty s = some d)
    (hflag : ctx.page_state_store.flagOf url ≠ .NeverReceivesState) :
    ∃ ctx2 : RenderCtx,
      ctx.get_active_or_frozen_page_state ty url = (some ⟨ty, d⟩, ctx2) ∧
      (∃ fa2, ctx2.frozen_app = some (fa2, prefs) ∧
        lookupStr fa2.page_state_store url = none) ∧
      ∀ ty2, ctx2.get_active_or_frozen_page_state ty2 url =
        (ctx2.get_active_page_state ty2 url, ctx2) := by
  have hadd := add_state_of_ne_never ctx.page_state_store url ⟨ty, d⟩ hflag
  have hfg : ctx.get_frozen_page_state_and_register ty url =
      (some ⟨ty, d⟩,
       { ctx with
         page_state_store :=
           ⟨insertStr ctx.page_state_store.map url ⟨ty, d⟩,
            insertStr ctx.page_state_store.flags url .HasState⟩,
         frozen_app := some ({ fa with
           page_state_store := removeStr fa.page_state_store url }, prefs) }) := by
    unfold RenderCtx.get_frozen_page_state_and_register
    rw [hfa]
    simp [hpref, hlook, hdes, hadd]
  refine ⟨{ ctx with
      page_state_store :=
        ⟨insertStr ctx.page_state_store.map url ⟨ty, d⟩,
         insertStr ctx.page_state_store.flags url .HasState⟩,
      frozen_app := some ({ fa with
        page_state_store := removeStr fa.page_state_store url }, prefs) },
    ?_, ⟨_, rfl, lookupStr_removeStr_self _ _⟩, ?_⟩
  · unfold RenderCtx.get_active_or_frozen_page_state
    rw [hfa]
    simp [hpref, hfg]
  · intro ty2
    exact reconcile_of_not_in_snapshot _ _ prefs ty2 url rfl
      (lookupStr_removeStr_self _ _)

/-- Witness for C1 at a concrete input: consuming the entry for "/a" from
`pageSnapshotA` returns `⟨1, 42⟩`, empties the snapshot's entry for "/a",
and a later call resolves from the live store. -/
theorem exactly_once_frozen_page_consumption_witness :
    ctxPendingA.frozen_app = some (pageSnapshotA, preferFrozenPrefs) ∧
    preferFrozenPrefs.page.should_use_frozen_state "/a" = true ∧
    lookupStr pageSnapshotA.page_state_store "/a" = some (.ser 1 42) ∧
    deserialize 1 (.ser 1 42) = some 42 ∧
    ctxPendingA.page_state_store.flagOf "/a" ≠
      PageStateFlag.NeverReceivesState ∧
    (∃ ctx2 : RenderCtx,
      ctxPendingA.get_active_or_frozen_page_state 1 "/a" =
        (some ⟨1, 42⟩, ctx2) ∧
      (∃ fa2, ctx2.frozen_app = some (fa2, preferFrozenPrefs) ∧
        lookupStr fa2.page_state_store "/a" = none) ∧
      ∀ ty2, ctx2.get_active_or_frozen_page_state ty2 "/a" =
        (ctx2.get_active_page_state ty2 "/a", ctx2)) :=
  ⟨rfl, rfl, rfl, rfl, by decide,
   exactly_once_frozen_page_consumption ctxPendingA pageSnapshotA
     preferFrozenPrefs 1 42 "/a" (.ser 1 42) rfl rfl rfl rfl (by decide)⟩

/-! ### C5 — a corrupt frozen entry is a soft miss -/

/-- C5: Corrupt frozen entry is a soft miss: for a URL whose snapshot entry
fails to deserialize at the requested type, the reconciliation call falls
back to the live store's value (or absent) and leaves the context — in
particular the snapshot and its entry — exactly as it was; no error is
reported (the call's only channel is the returned option). -/
theorem corrupt_frozen_entry_soft_miss (ctx : RenderCtx) (fa : FrozenApp)
    (prefs : ThawPrefs) (ty : Nat) (url : String) (s : SerStr)
    (hfa : ctx.frozen_app = some (fa, prefs))
    (hlook : lookupStr fa.page_state_store url = some s)
    (hdes : deserialize ty s = none) :
    ctx.get_active_or_frozen_page_state ty url =
      (ctx.get_active_page_state ty url, ctx) ∧
    (ctx.get_active_or_frozen_page_state ty url).2.frozen_app =
      some (fa, prefs) := by
  have hfg : ctx.get_frozen_page_state_and_register ty url = (none, ctx) := by
    unfold RenderCtx.get_frozen_page_state_and_register
    rw [hfa]
    by_cases hp : prefs.page.should_use_frozen_state url <;>
      simp [hp, hlook, hdes]
  have heq : ctx.get_active_or_frozen_page_state ty url =
      (ctx.get_active_page_state ty url, ctx) := by
    unfold RenderCtx.get_active_or_frozen_page_state
    rw [hfa]
    by_cases hp : prefs.page.should_use_frozen_state url
    · simp [hp, hfg, RenderCtx.get_active_page_state]
    · cases h : ctx.get_active_page_state ty url <;>
        simp [hp, h, hfg, RenderCtx.get_active_page_state]
  exact ⟨heq, by rw [heq]; exact hfa⟩

/-- Witness for C5 at a concrete input: with the unparseable entry for "/a"
pending, reconciliation returns the live value `⟨1, 10⟩`... the live store
of `ctxCorrupt` holds `⟨1, 42⟩` for "/a", which is returned unchanged. -/
theorem corrupt_frozen_entry_soft_miss_witness :
    ctxCorrupt.frozen_app = some (corruptSnapshot, preferFrozenPrefs) ∧
    lookupStr corruptSnapshot.page_state_store "/a" = some (.junk 0) ∧
    deserialize 1 (.junk 0) = none ∧
    (ctxCorrupt.get_active_or_frozen_page_state 1 "/a" =
      (ctxCorrupt.get_active_page_state 1 "/a", ctxCorrupt) ∧
     (ctxCorrupt.get_active_or_frozen_page_state 1 "/a").2.frozen_app =
      some (corruptSnapshot, preferFrozenPrefs)) :=
  ⟨rfl, rfl, rfl,
   corrupt_frozen_entry_soft_miss ctxCorrupt corruptSnapshot
     preferFrozenPrefs 1 "/a" (.junk 0) rfl rfl rfl⟩

/-! ### C2 — preference-precedence fallback for pages (corrected) -/

/-- C2 counterexample: with `pageSnapshotB` pending, a prefer-active policy
for "/a", a valid snapshot entry for "/a", and no live state, the
reconciliation call returns `none` and leaves the context untouched — it
does not return the frozen-derived value `⟨0, 7⟩` the claim requires. -/
theorem prefer_active_fallback_counterexample :
    preferActivePrefs.page.should_use_frozen_state "/a" = false ∧
    lookupStr pageSnapshotB.page_state_store "/a" = some (.ser 0 7) ∧
    deserialize 0 (.ser 0 7) = some 7 ∧
    ctxPreferActive.get_active_page_state 0 "/a" = none ∧
    ctxPreferActive.get_active_or_frozen_page_state 0 "/a" =
      (none, ctxPreferActive) :=
  ⟨rfl, rfl, rfl, rfl, rfl⟩

/-- C2 (amended): for every URL with a pending (snapshot, preferences) pair
whose per-page policy is prefer-active, if the live store holds no state for
the URL, the fall-back call into the frozen getter re-checks the policy and
yields nothing: the reconciliation call returns absent and leaves the
context — the snapshot entry included — unchanged; frozen data is never
returned for a prefer-active page. -/
theorem prefer_active_no_frozen_fallback (ctx : RenderCtx) (fa : FrozenApp)
    (prefs : ThawPrefs) (ty : Nat) (url : String)
    (hfa : ctx.frozen_app = some (fa, prefs))
    (hpref : prefs.page.should_use_frozen_state url = false)
    (hactive : ctx.get_active_page_state ty url = none) :
    ctx.get_active_or_frozen_page_state ty url = (none, ctx) := by
  unfold RenderCtx.get_active_or_frozen_page_state
    RenderCtx.get_frozen_page_state_and_register
  rw [hfa]
  simp [hpref, hactive]

/-- Witness for the amended C2 at a concrete input: on `ctxPreferActive`
the call returns absent. -/
theorem prefer_active_no_frozen_fallback_witness :
    ctxPreferActive.frozen_app = some (pageSnapshotB, preferActivePrefs) ∧
    preferActivePrefs.page.should_use_frozen_state "/a" = false ∧
    ctxPreferActive.get_active_page_state 0 "/a" = none ∧
    ctxPreferActive.get_active_or_frozen_page_state 0 "/a" =
      (none, ctxPreferActive) :=
  ⟨rfl, rfl, rfl,
   prefer_active_no_frozen_fallback ctxPreferActive pageSnapshotB
     preferActivePrefs 0 "/a" rfl rfl rfl⟩

/-! ### C3 — freeze/thaw round-trip -/

/-- C3: Freeze/thaw round-trip: freezing a live state set and immediately
thawing the result, with `global_prefer_frozen = true` and every page
preferring frozen, stages the snapshot and reloads the current page, and
subsequent reconciliation yields, for every page that had active state at
freeze time (such a page is not flagged `NeverReceivesState`, by the store's
invariant), a value observationally equal to the pre-freeze value. -/
theorem freeze_thaw_round_trip (ctx : RenderCtx) (p : String)
    (prefs : ThawPrefs)
    (hroute : ctx.router.currentPath = some p)
    (_hg : prefs.global_prefer_frozen = true)
    (hprefs : ∀ u, prefs.page.should_use_frozen_state u = true) :
    ctx.thaw (.valid (ctx.freeze).1) prefs =
      (.ok .reload, { ctx with frozen_app := some ((ctx.freeze).1, prefs) }) ∧
    ∀ url v, lookupStr ctx.page_state_store.map url = some v →
      ctx.page_state_store.flagOf url ≠ .NeverReceivesState →
      (RenderCtx.get_active_or_frozen_page_state
        { ctx with frozen_app := some ((ctx.freeze).1, prefs) } v.ty url).1
        = some v := by
  obtain ⟨r, pss, gs, fz⟩ := ctx
  constructor
  · cases r <;>
      simp_all [RenderCtx.thaw, RenderCtx.freeze, RouterLoadState.currentPath]
  · intro url v hlook hflag
    have hlookF : lookupStr pss.freeze_to_hash_map url = some v.freeze := by
      unfold PageStateStore.freeze_to_hash_map
      rw [lookupStr_map_snd Val.freeze pss.map url, hlook]
      rfl
    have hadd := add_state_of_ne_never pss url ⟨v.ty, v.data⟩ hflag
    unfold RenderCtx.get_active_or_frozen_page_state
      RenderCtx.get_frozen_page_state_and_register
    simp [RenderCtx.freeze, hprefs url, hlookF, deserialize, Val.freeze, hadd]

/-- Witness for C3 at a concrete input: freezing `ctxLive` (live state
`⟨1, 42⟩` for "/a") and thawing the result stages the snapshot, reloads, and
reconciliation for "/a" returns `⟨1, 42⟩` again. -/
theorem freeze_thaw_round_trip_witness :
    ctxLive.router.currentPath = some "/a" ∧
    preferFrozenPrefs.global_prefer_frozen = true ∧
    (∀ u, preferFrozenPrefs.page.should_use_frozen_state u = true) ∧
    (ctxLive.thaw (.valid (ctxLive.freeze).1) preferFrozenPrefs =
      (.ok .reload,
       { ctxLive with frozen_app := some ((ctxLive.freeze).1, preferFrozenPrefs) }) ∧
     ∀ url v, lookupStr ctxLive.page_state_store.map url = some v →
       ctxLive.page_state_store.flagOf url ≠ .NeverReceivesState →
       (RenderCtx.get_active_or_frozen_page_state
         { ctxLive with frozen_app := some ((ctxLive.freeze).1, preferFrozenPrefs) }
         v.ty url).1 = some v) :=
  ⟨rfl, rfl, fun _ => rfl,
   freeze_thaw_round_trip ctxLive "/a" preferFrozenPrefs rfl rfl fun _ => rfl⟩

/-! ### C6 — global-state resolution (corrected) -/

/-- C6 counterexample: with `global_prefer_frozen = false`, an absent active
global state, and a pending snapshot holding a valid frozen global value,
the resolution returns `none` and consumes nothing — the claimed fallback to
the frozen value does not happen. -/
theorem global_prefer_active_fallback_counterexample :
    ctxGlobalPreferActive.get_active_global_state 3 = none ∧
    globalSnapshot.global_state = .ser 3 5 ∧
    deserialize 3 (.ser 3 5) = some 5 ∧
    ctxGlobalPreferActive.get_active_or_frozen_global_state 3 =
      (none, ctxGlobalPreferActive) :=
  ⟨rfl, rfl, rfl, rfl⟩

/-- C6 (amended): global-state resolution mirrors the page structure under
the single boolean `global_prefer_frozen`: when it is true, the frozen
getter is tried first with fallback to the active slot; when it is false,
the active slot is read and the frozen fall-back call yields nothing (the
getter re-checks the boolean); presence of frozen global state is tested
against the sentinel "None", and a successful consumption registers the
value, resets the snapshot's global field to "None", and is thereby
exactly-once. -/
theorem global_two_branch_resolution (ctx : RenderCtx) (fa : FrozenApp)
    (prefs : ThawPrefs) (ty : Nat)
    (hfa : ctx.frozen_app = some (fa, prefs)) :
    (prefs.global_prefer_frozen = true →
      ctx.get_active_or_frozen_global_state ty =
        (match ctx.get_frozen_global_state_and_register ty with
         | (some v, ctx2) => (some v, ctx2)
         | (none, ctx2) => (ctx2.get_active_global_state ty, ctx2))) ∧
    (prefs.global_prefer_frozen = false →
      ctx.get_active_or_frozen_global_state ty =
        (ctx.get_active_global_state ty, ctx) ∧
      ctx.get_frozen_global_state_and_register ty = (none, ctx)) ∧
    (fa.global_state = .noneSentinel →
      ctx.get_frozen_global_state_and_register ty = (none, ctx)) ∧
    (∀ v ctx2, ctx.get_frozen_global_state_and_register ty = (some v, ctx2) →
      ctx2.global_state = some v ∧
      ctx2.frozen_app =
        some ({ fa with global_state := .noneSentinel }, prefs) ∧
      ∀ ty2, ctx2.get_frozen_global_state_and_register ty2 = (none, ctx2)) := by
  refine ⟨?_, ?_, ?_, ?_⟩
  · intro hb
    unfold RenderCtx.get_active_or_frozen_global_state
    rw [hfa]
    rcases h : ctx.get_frozen_global_state_and_register ty with ⟨o, c⟩
    cases o <;> simp [hb, h]
  · intro hb
    have hfg : ctx.get_frozen_global_state_and_register ty = (none, ctx) := by
      unfold RenderCtx.get_frozen_global_state_and_register
      rw [hfa]
      simp [hb]
    refine ⟨?_, hfg⟩
    unfold RenderCtx.get_active_or_frozen_global_state
    rw [hfa]
    cases h : ctx.get_active_global_state ty <;> simp [hb, h, hfg]
  · intro hg
    unfold RenderCtx.get_frozen_global_state_and_register
    rw [hfa]
    cases hb : prefs.global_prefer_frozen <;> simp [hb, hg]
  · intro v ctx2 hsucc
    unfold RenderCtx.get_frozen_global_state_and_register at hsucc
    rw [hfa] at hsucc
    cases hb : prefs.global_prefer_frozen
    · simp [hb] at hsucc
    · cases hg : fa.global_state with
      | noneSentinel => simp [hb, hg] at hsucc
      | junk n => simp [hb, hg, deserialize] at hsucc
      | ser t dd =>
        cases hd : deserialize ty (.ser t dd) with
        | none => simp [hb, hg, hd] at hsucc
        | some d2 =>
          simp [hb, hg, hd] at hsucc
          obtain ⟨hv, hctx2⟩ := hsucc
          subst hctx2
          refine ⟨by rw [hv], by rfl, ?_⟩
          intro ty2
          unfold RenderCtx.get_frozen_global_state_and_register
          simp [hb]

/-- Witness for the amended C6 at a concrete input: with `globalSnapshot`
pending and `global_prefer_frozen = true`. -/
theorem global_two_branch_resolution_witness :
    ctxGlobalPreferFrozen.frozen_app =
      some (globalSnapshot, preferFrozenPrefs) ∧
    ((preferFrozenPrefs.global_prefer_frozen = true →
      ctxGlobalPreferFrozen.get_active_or_frozen_global_state 3 =
        (match ctxGlobalPreferFrozen.get_frozen_global_state_and_register 3 with
         | (some v, ctx2) => (some v, ctx2)
         | (none, ctx2) => (ctx2.get_active_global_state 3, ctx2))) ∧
    (preferFrozenPrefs.global_prefer_frozen = false →
      ctxGlobalPreferFrozen.get_active_or_frozen_global_state 3 =
        (ctxGlobalPreferFrozen.get_active_global_state 3,
         ctxGlobalPreferFrozen) ∧
      ctxGlobalPreferFrozen.get_frozen_global_state_and_register 3 =
        (none, ctxGlobalPreferFrozen)) ∧
    (globalSnapshot.global_state = .noneSentinel →
      ctxGlobalPreferFrozen.get_frozen_global_state_and_register 3 =
        (none, ctxGlobalPreferFrozen)) ∧
    (∀ v ctx2,
      ctxGlobalPreferFrozen.get_frozen_global_state_and_register 3 =
        (some v, ctx2) →
      ctx2.global_state = some v ∧
      ctx2.frozen_app =
        some ({ globalSnapshot with global_state := .noneSentinel },
              preferFrozenPrefs) ∧
      ∀ ty2, ctx2.get_frozen_global_state_and_register ty2 = (none, ctx2))) :=
  ⟨rfl,
   global_two_branch_resolution ctxGlobalPreferFrozen globalSnapshot
     preferFrozenPrefs 3 rfl⟩

/-! ### C8 — freeze with no current route (corrected) -/

/-- C8 counterexample: calling `freeze` in a server-side context (the
routing collaborator reports no current route) is not fatal and does
produce a snapshot — one whose recorded route is the sentinel "SERVER". -/
theorem freeze_on_server_counterexample :
    ctxServer.router = RouterLoadState.Server ∧
    (ctxServer.freeze).1 = ⟨"SERVER", .noneSentinel, []⟩ :=
  ⟨rfl, rfl⟩

/-- C8 (amended): calling `freeze` when the routing collaborator reports no
current route succeeds: it produces a snapshot whose recorded route is the
sentinel "SERVER", with the live state serialized as usual and the context
untouched. -/
theorem freeze_on_server (ctx : RenderCtx)
    (h : ctx.router = RouterLoadState.Server) :
    ctx.freeze =
      (⟨"SERVER", globalFreeze ctx.global_state,
        ctx.page_state_store.freeze_to_hash_map⟩, ctx) := by
  unfold RenderCtx.freeze
  rw [h]

/-- Witness for the amended C8 at a concrete input. -/
theorem freeze_on_server_witness :
    ctxServer.router = RouterLoadState.Server ∧
    ctxServer.freeze =
      (⟨"SERVER", globalFreeze ctxServer.global_state,
        ctxServer.page_state_store.freeze_to_hash_map⟩, ctxServer) :=
  ⟨rfl, freeze_on_server ctxServer rfl⟩
